import Mathlib

/-!
Verification development for the video-analyzer backend (`src/main.py`).

The Python module is shallowly embedded: Python/JSON values become the
inductive `PyVal`; raised Python exceptions become `Except PyErr`;
CPython numeric values (int and float alike) are modelled as exact
rationals `ℚ`, with `float(...)` / `int(...)` string parsing modelled for
plain decimal notation (the notation the probing tool emits); the
`subprocess` / `json.loads` boundary of `run_ffprobe` is modelled by the
inductive `ProbeOutcome` describing what the external tool did.
-/

/-- A Python/JSON value as manipulated by `main.py`: `null` is Python's
`None`, `num` covers both int and float (as an exact rational), `dict`
keeps insertion order as an association list, matching CPython dicts. -/
inductive PyVal where
  | null
  | str (s : String)
  | num (q : ℚ)
  | list (xs : List PyVal)
  | dict (kvs : List (String × PyVal))

/-- The Python exceptions that the embedded code can raise. -/
inductive PyErr where
  | valueError
  | typeError
  | attributeError
  | keyError
  | fileNotFoundError
  | oSError

/-- First-match lookup in a Python dict (keys are unique in CPython, so
first match is the match). -/
def dget (kvs : List (String × PyVal)) (k : String) : Option PyVal :=
  match kvs with
  | [] => Option.none
  | (k', x) :: rest => if k' = k then some x else dget rest k

/-- `dict.get(k, dflt)` on a known dict. -/
def dgetD (kvs : List (String × PyVal)) (k : String) (dflt : PyVal) : PyVal :=
  (dget kvs k).getD dflt

/-- Lookup of a key in a report value (used to state properties of the
produced reports). -/
def rlookup (v : PyVal) (k : String) : Option PyVal :=
  match v with
  | .dict kvs => dget kvs k
  | _ => Option.none

/-- Python truthiness (`if not video_stream:` etc.). -/
def pyTruthy : PyVal → Bool
  | .null => false
  | .str s => !(s == "")
  | .num q => decide (q ≠ 0)
  | .list xs => !xs.isEmpty
  | .dict kvs => !kvs.isEmpty

/-- The `.get` method: only dicts have it, anything else raises
`AttributeError` as in CPython. -/
def pyGet (v : PyVal) (k : String) (dflt : PyVal) : Except PyErr PyVal :=
  match v with
  | .dict kvs => .ok (dgetD kvs k dflt)
  | _ => .error .attributeError

/-- Subscription `v[k]` with a string key: `KeyError` when the key is
missing from a dict, `TypeError` on non-dicts. -/
def pyGetItem (v : PyVal) (k : String) : Except PyErr PyVal :=
  match v with
  | .dict kvs =>
      match dget kvs k with
      | some x => .ok x
      | Option.none => .error .keyError
  | _ => .error .typeError

/-- The membership test `k in v` for a string `k`: key membership on
dicts, element comparison on lists, substring test on strings,
`TypeError` otherwise. -/
def pyContains (v : PyVal) (k : String) : Except PyErr Bool :=
  match v with
  | .dict kvs => .ok (kvs.any (fun p => p.1 == k))
  | .list xs =>
      .ok (xs.any (fun x => match x with | .str t => t == k | _ => false))
  | .str s => .ok (decide (k.data <:+: s.data))
  | _ => .error .typeError

/-- Iteration `for s in v`: lists yield elements, strings yield
one-character strings, dicts yield their keys; other values raise
`TypeError`. -/
def pyIter : PyVal → Except PyErr (List PyVal)
  | .list xs => .ok xs
  | .str s => .ok (s.data.map (fun c => .str (String.singleton c)))
  | .dict kvs => .ok (kvs.map (fun p => PyVal.str p.1))
  | _ => .error .typeError

/-- Fold a digit list into a natural number. -/
def digitsToNat (l : List Char) : Nat :=
  l.foldl (fun n c => n * 10 + (c.toNat - 48)) 0

/-- Unsigned part of CPython `float(string)` restricted to plain decimal
notation (digits with at most one dot and at least one digit), which is
the notation the probing tool emits for numeric fields. -/
def parseDecimalCore (l : List Char) : Option ℚ :=
  if l.all (fun c => c.isDigit || c == '.') && decide (l.count '.' ≤ 1)
      && l.any Char.isDigit then
    let ip := l.takeWhile (fun c => c ≠ '.')
    let fp := (l.dropWhile (fun c => c ≠ '.')).tail
    some ((digitsToNat ip : ℚ) + (digitsToNat fp : ℚ) / (10 ^ fp.length : ℚ))
  else Option.none

/-- CPython `float(string)` on plain decimals, with an optional sign. -/
def parseDecimal (s : String) : Option ℚ :=
  match s.data with
  | '-' :: rest => (parseDecimalCore rest).map (fun q => -q)
  | '+' :: rest => parseDecimalCore rest
  | l => parseDecimalCore l

/-- CPython `int(string)`: only an optionally signed run of digits
parses; anything else (including `"12.5"`) raises `ValueError`. -/
def parseIntStr (s : String) : Option ℤ :=
  match s.data with
  | '-' :: rest =>
      if !rest.isEmpty && rest.all Char.isDigit then
        some (-(digitsToNat rest : ℤ))
      else Option.none
  | '+' :: rest =>
      if !rest.isEmpty && rest.all Char.isDigit then
        some ((digitsToNat rest : ℤ))
      else Option.none
  | l =>
      if !l.isEmpty && l.all Char.isDigit then
        some ((digitsToNat l : ℤ))
      else Option.none

/-- The builtin `float(x)`: numbers pass through, strings are parsed
(`ValueError` on failure), everything else raises `TypeError`. -/
def pyFloat (v : PyVal) : Except PyErr ℚ :=
  match v with
  | .num q => .ok q
  | .str s =>
      match parseDecimal s with
      | some q => .ok q
      | Option.none => .error .valueError
  | _ => .error .typeError

/-- The builtin `int(x)`: numbers are truncated toward zero (exact on the
integral values this program ever feeds it), strings are parsed as
integer literals (`ValueError` on failure), others raise `TypeError`. -/
def pyInt (v : PyVal) : Except PyErr ℚ :=
  match v with
  | .num q => .ok ((Int.tdiv q.num (q.den : ℤ) : ℤ) : ℚ)
  | .str s =>
      match parseIntStr s with
      | some n => .ok (n : ℚ)
      | Option.none => .error .valueError
  | _ => .error .typeError

/-- Render a nonnegative rational with three decimal places, modelling
the `:.3f` f-string format used for the skew message. -/
def fmt3 (q : ℚ) : String :=
  let m : Nat := (⌊q * 1000 + 1 / 2⌋).toNat
  toString (m / 1000) ++ "." ++
    (if m % 1000 < 10 then "00" else if m % 1000 < 100 then "0" else "") ++
    toString (m % 1000)

-- =================================================================
-- main.py, lines 17 and 25-28
-- =================================================================

/-- `ALLOWED_EXTENSIONS = {'mp4', 'mov', 'avi', 'mkv'}` (main.py:17). -/
def ALLOWED_EXTENSIONS : List String := ["mp4", "mov", "avi", "mkv"]

/-- `filename.rsplit('.', 1)` (split from the right, at most once). -/
def rsplit1 (sep : Char) (s : String) : List String :=
  if s.data.contains sep then
    [((s.data.reverse.dropWhile (fun c => c ≠ sep)).tail.reverse).asString,
     ((s.data.reverse.takeWhile (fun c => c ≠ sep)).reverse).asString]
  else [s]

/-- `allowed_file` (main.py:25-28): `'.' in filename and
filename.rsplit('.', 1)[1].lower() in ALLOWED_EXTENSIONS`. -/
def allowed_file (filename : String) : Bool :=
  filename.data.contains '.' &&
    ALLOWED_EXTENSIONS.contains (((rsplit1 '.' filename).getD 1 "").toLower)

/-- The substring after the last `'.'` of a name — the spec-side
description of the extension the check inspects. -/
def extAfterLastDot (s : String) : String :=
  ((s.data.reverse.takeWhile (fun c => c ≠ '.')).reverse).asString

-- =================================================================
-- main.py, lines 30-68: run_ffprobe
-- =================================================================

/-- What the external `ffprobe` invocation did, as observed at the
`subprocess.run` / `json.loads` boundary: the executable was missing, it
exited non-zero with some stderr text, or it produced standard output
that either decodes to a JSON value or fails to decode. -/
inductive ProbeOutcome where
  | toolAbsent
  | nonZeroExit (stderr : String)
  | output (decoded : Option PyVal)

/-- `run_ffprobe` (main.py:54-68): `CalledProcessError` is caught and
turned into an error dict carrying stderr; `JSONDecodeError` is caught
and turned into an error dict; a missing executable raises
`FileNotFoundError`, which this function does not catch. -/
def run_ffprobe (outcome : ProbeOutcome) : Except PyErr PyVal :=
  match outcome with
  | .toolAbsent => .error .fileNotFoundError
  | .nonZeroExit stderr =>
      .ok (.dict [("error", .str "FFprobe analysis failed"),
                  ("details", .str stderr)])
  | .output Option.none =>
      .ok (.dict [("error", .str "Invalid JSON response from FFprobe")])
  | .output (some v) => .ok v

-- =================================================================
-- main.py, lines 70-145: analyze_sync_and_metadata
-- =================================================================

/-- `next((s for s in streams if s.get('codec_type') == t), None)`
(main.py:88-89): first matching element, `None` when there is none;
a non-dict element reached during the scan raises `AttributeError`. -/
def findStream (t : String) : List PyVal → Except PyErr PyVal
  | [] => .ok .null
  | s :: rest => do
      let ct ← pyGet s "codec_type" .null
      if (match ct with | .str u => u == t | _ => false) then
        pure s
      else
        findStream t rest

/-- The sync-classification block of `analyze_sync_and_metadata`
(main.py:91-109), returning the `(sync_status, sync_message)` pair. The
threshold comparison is `abs(v_start - a_start) > 0.1` — strictly
greater. -/
def syncClassify (video_stream audio_stream : PyVal) :
    Except PyErr (String × String) :=
  if !pyTruthy video_stream then
    .ok ("警告: 缺少视频流", "文件不包含视频轨道。")
  else if !pyTruthy audio_stream then
    .ok ("警告: 缺少音频流", "文件不包含音频轨道。")
  else do
    let vs ← pyGet video_stream "start_time" (.num 0)
    let v_start ← pyFloat vs
    let as0 ← pyGet audio_stream "start_time" (.num 0)
    let a_start ← pyFloat as0
    if |v_start - a_start| > 1 / 10 then
      pure ("警告: 音视频起始时间不同步",
        "视频起始时间差: " ++ fmt3 |v_start - a_start| ++ " 秒。建议检查音轨是否延迟。")
    else
      pure ("OK: 音视频同步存在", "文件包含音视频流。")

/-- `report["video"] = {...}` guarded by `if video_stream:`
(main.py:123-130), as the list of entries it appends to the report. -/
def videoSection (video_stream : PyVal) :
    Except PyErr (List (String × PyVal)) :=
  if pyTruthy video_stream then do
    let c ← pyGet video_stream "codec_name" (.str "未知")
    let w ← pyGet video_stream "width" .null
    let h ← pyGet video_stream "height" .null
    let fr ← pyGet video_stream "avg_frame_rate" (.str "未知")
    let tg ← pyGet video_stream "codec_tag_string" (.str "未知")
    pure [("video", PyVal.dict
      [("codec", c), ("width", w), ("height", h),
       ("avg_frame_rate", fr), ("codec_tag_string", tg)])]
  else pure []

/-- `report["audio"] = {...}` guarded by `if audio_stream:`
(main.py:131-137). -/
def audioSection (audio_stream : PyVal) :
    Except PyErr (List (String × PyVal)) :=
  if pyTruthy audio_stream then do
    let c ← pyGet audio_stream "codec_name" (.str "未知")
    let sr ← pyGet audio_stream "sample_rate" .null
    let ch ← pyGet audio_stream "channels" .null
    let cl ← pyGet audio_stream "channel_layout" (.str "未知")
    pure [("audio", PyVal.dict
      [("codec", c), ("sample_rate", sr), ("channels", ch),
       ("channel_layout", cl)])]
  else pure []

/-- Report assembly (main.py:112-145): the base dict literal in its
evaluation order, then the conditional `video` / `audio` sections, then
`codec_exception`. -/
def buildReport (format_info video_stream audio_stream : PyVal)
    (sync : String × String) : Except PyErr PyVal := do
  let filename ← pyGet format_info "filename" (.str "未知")
  let dur0 ← pyGet format_info "duration" (.num 0)
  let duration ← pyFloat dur0
  let sz0 ← pyGet format_info "size" (.num 0)
  let size_bytes ← pyInt sz0
  let fn0 ← pyGet format_info "format_name" (.str "未知")
  let br0 ← pyGet format_info "bit_rate" (.num 0)
  let bit_rate ← pyInt br0
  let vsec ← videoSection video_stream
  let asec ← audioSection audio_stream
  let codecEx : PyVal :=
    if !pyTruthy video_stream || !pyTruthy audio_stream then
      .str "警告: 缺少关键流"
    else .str "OK"
  pure (.dict
    ([("sync_status", .str sync.1), ("sync_message", .str sync.2),
      ("filename", filename), ("duration", .num duration),
      ("size_bytes", .num size_bytes), ("format_name", fn0),
      ("bit_rate", .num bit_rate)]
      ++ vsec ++ asec ++ [("codec_exception", codecEx)]))

/-- `analyze_sync_and_metadata` (main.py:70-145): the early return on a
propagated probe error (lines 80-82), then stream selection, sync
classification and report assembly. -/
def analyze_sync_and_metadata (ffprobe_data : PyVal) : Except PyErr PyVal := do
  let hasError ← pyContains ffprobe_data "error"
  if hasError then do
    let msg ← pyGetItem ffprobe_data "error"
    let det ← pyGet ffprobe_data "details" (.str "")
    pure (.dict [("sync_status", .str "分析失败"), ("message", msg),
                 ("details", det)])
  else do
    let streamsV ← pyGet ffprobe_data "streams" (.list [])
    let format_info ← pyGet ffprobe_data "format" (.dict [])
    let streams ← pyIter streamsV
    let video_stream ← findStream "video" streams
    let audio_stream ← findStream "audio" streams
    let sync ← syncClassify video_stream audio_stream
    buildReport format_info video_stream audio_stream sync

-- =================================================================
-- main.py, lines 169-221: the /analyze route from the file-save step on
-- =================================================================

/-- Whether `file.save(filepath)` succeeded; when it raised, `leftover`
records whether a (partial) file was left on disk. -/
inductive SaveResult where
  | saved
  | failed (leftover : Bool)

/-- The HTTP response shapes the route can produce past validation. -/
inductive HttpResponse where
  | ok200 (body : PyVal)
  | err500

/-- `analyze_video` (main.py:196-221) from the file-save step on: the
try-block runs save → `run_ffprobe` → `analyze_sync_and_metadata`, the
`except Exception` arm yields a 500 response, and the `finally` block
removes the temp file when it exists. Returns (temp file still exists
after the request, response). -/
def analyze_video (sv : SaveResult) (po : ProbeOutcome) :
    Bool × HttpResponse :=
  let step : Bool × Except PyErr PyVal :=
    match sv with
    | .failed leftover => (leftover, .error .oSError)
    | .saved =>
        (true, do
          let raw ← run_ffprobe po
          analyze_sync_and_metadata raw)
  let afterFinally := if step.1 then false else step.1
  let resp :=
    match step.2 with
    | .ok report =>
        HttpResponse.ok200 (.dict [("status", .str "分析完成"),
                                   ("summary", report)])
    | .error _ => HttpResponse.err500
  (afterFinally, resp)

-- =================================================================
-- Lemmas: monadic plumbing and result shapes
-- =================================================================

lemma ebind_ok {α β : Type} (x : α) (f : α → Except PyErr β) :
    ((Except.ok x : Except PyErr α) >>= f) = f x := rfl

lemma ebind_err {α β : Type} (e : PyErr) (f : α → Except PyErr β) :
    ((Except.error e : Except PyErr α) >>= f) = Except.error e := rfl

lemma ebind_ok_inv {α β : Type} {m : Except PyErr α} {f : α → Except PyErr β}
    {b : β} (h : (m >>= f) = .ok b) : ∃ x, m = .ok x ∧ f x = .ok b := by
  cases m with
  | error e => rw [ebind_err] at h; exact absurd h (by simp)
  | ok x => exact ⟨x, rfl, h⟩

lemma dget_nil (k : String) : dget [] k = Option.none := rfl

lemma dget_cons (k' k : String) (x : PyVal) (rest : List (String × PyVal)) :
    dget ((k', x) :: rest) k = if k' = k then some x else dget rest k := by
  rw [dget]

/-- On a successful no-error probe dict, `analyze_sync_and_metadata` is
the composition of the sync classification with the report assembly. -/
lemma analyze_pipeline {d sv fmtV : PyVal} {streams : List PyVal} {v a : PyVal}
    (h0 : pyContains d "error" = .ok false)
    (h1 : pyGet d "streams" (.list []) = .ok sv)
    (h2 : pyGet d "format" (.dict []) = .ok fmtV)
    (h3 : pyIter sv = .ok streams)
    (h4 : findStream "video" streams = .ok v)
    (h5 : findStream "audio" streams = .ok a) :
    analyze_sync_and_metadata d =
      (syncClassify v a) >>= buildReport fmtV v a := by
  unfold analyze_sync_and_metadata
  rw [h0, ebind_ok]
  simp only [Bool.false_eq_true, if_false]
  rw [h1, ebind_ok, h2, ebind_ok, h3, ebind_ok, h4, ebind_ok, h5, ebind_ok]

/-- Inversion of a successful report assembly: every intermediate
extraction succeeded and the report is the assembled dict. -/
lemma buildReport_shape {fmtV v a : PyVal} {sync : String × String} {r : PyVal}
    (h : buildReport fmtV v a sync = .ok r) :
    ∃ filename dur0 duration sz0 size_bytes fn0 br0 bit_rate vsec asec,
      pyGet fmtV "filename" (.str "未知") = .ok filename ∧
      pyGet fmtV "duration" (.num 0) = .ok dur0 ∧
      pyFloat dur0 = .ok duration ∧
      pyGet fmtV "size" (.num 0) = .ok sz0 ∧
      pyInt sz0 = .ok size_bytes ∧
      pyGet fmtV "format_name" (.str "未知") = .ok fn0 ∧
      pyGet fmtV "bit_rate" (.num 0) = .ok br0 ∧
      pyInt br0 = .ok bit_rate ∧
      videoSection v = .ok vsec ∧
      audioSection a = .ok asec ∧
      r = .dict
        ([("sync_status", .str sync.1), ("sync_message", .str sync.2),
          ("filename", filename), ("duration", .num duration),
          ("size_bytes", .num size_bytes), ("format_name", fn0),
          ("bit_rate", .num bit_rate)]
          ++ vsec ++ asec ++
          [("codec_exception",
            if !pyTruthy v || !pyTruthy a then PyVal.str "警告: 缺少关键流"
            else PyVal.str "OK")]) := by
  unfold buildReport at h
  obtain ⟨filename, e1, h⟩ := ebind_ok_inv h
  obtain ⟨dur0, e2, h⟩ := ebind_ok_inv h
  obtain ⟨duration, e3, h⟩ := ebind_ok_inv h
  obtain ⟨sz0, e4, h⟩ := ebind_ok_inv h
  obtain ⟨size_bytes, e5, h⟩ := ebind_ok_inv h
  obtain ⟨fn0, e6, h⟩ := ebind_ok_inv h
  obtain ⟨br0, e7, h⟩ := ebind_ok_inv h
  obtain ⟨bit_rate, e8, h⟩ := ebind_ok_inv h
  obtain ⟨vsec, e9, h⟩ := ebind_ok_inv h
  obtain ⟨asec, e10, h⟩ := ebind_ok_inv h
  refine ⟨filename, dur0, duration, sz0, size_bytes, fn0, br0, bit_rate,
    vsec, asec, e1, e2, e3, e4, e5, e6, e7, e8, e9, e10, ?_⟩
  simpa [pure, Except.pure] using h.symm

lemma videoSection_of_not {v : PyVal} (h : pyTruthy v = false) :
    videoSection v = .ok [] := by
  simp [videoSection, h, pure, Except.pure]

lemma audioSection_of_not {a : PyVal} (h : pyTruthy a = false) :
    audioSection a = .ok [] := by
  simp [audioSection, h, pure, Except.pure]

lemma videoSection_shape {v : PyVal} {vsec : List (String × PyVal)}
    (htv : pyTruthy v = true) (h : videoSection v = .ok vsec) :
    ∃ c w hh fr tg,
      pyGet v "codec_name" (.str "未知") = .ok c ∧
      pyGet v "width" .null = .ok w ∧
      pyGet v "height" .null = .ok hh ∧
      pyGet v "avg_frame_rate" (.str "未知") = .ok fr ∧
      pyGet v "codec_tag_string" (.str "未知") = .ok tg ∧
      vsec = [("video", PyVal.dict
        [("codec", c), ("width", w), ("height", hh),
         ("avg_frame_rate", fr), ("codec_tag_string", tg)])] := by
  unfold videoSection at h
  rw [htv] at h
  simp only [if_true] at h
  obtain ⟨c, e1, h⟩ := ebind_ok_inv h
  obtain ⟨w, e2, h⟩ := ebind_ok_inv h
  obtain ⟨hh, e3, h⟩ := ebind_ok_inv h
  obtain ⟨fr, e4, h⟩ := ebind_ok_inv h
  obtain ⟨tg, e5, h⟩ := ebind_ok_inv h
  exact ⟨c, w, hh, fr, tg, e1, e2, e3, e4, e5,
    by simpa [pure, Except.pure] using h.symm⟩

lemma audioSection_shape {a : PyVal} {asec : List (String × PyVal)}
    (hta : pyTruthy a = true) (h : audioSection a = .ok asec) :
    ∃ c sr ch cl,
      pyGet a "codec_name" (.str "未知") = .ok c ∧
      pyGet a "sample_rate" .null = .ok sr ∧
      pyGet a "channels" .null = .ok ch ∧
      pyGet a "channel_layout" (.str "未知") = .ok cl ∧
      asec = [("audio", PyVal.dict
        [("codec", c), ("sample_rate", sr), ("channels", ch),
         ("channel_layout", cl)])] := by
  unfold audioSection at h
  rw [hta] at h
  simp only [if_true] at h
  obtain ⟨c, e1, h⟩ := ebind_ok_inv h
  obtain ⟨sr, e2, h⟩ := ebind_ok_inv h
  obtain ⟨ch, e3, h⟩ := ebind_ok_inv h
  obtain ⟨cl, e4, h⟩ := ebind_ok_inv h
  exact ⟨c, sr, ch, cl, e1, e2, e3, e4,
    by simpa [pure, Except.pure] using h.symm⟩

/-- Workhorse: every field of a successfully produced (non-error-branch)
report, located by key lookup, in terms of the selected streams and the
format section. -/
lemma analyze_ok_lookups {d sv fmtV : PyVal} {streams : List PyVal}
    {v a r : PyVal} {sync : String × String}
    (h0 : pyContains d "error" = .ok false)
    (h1 : pyGet d "streams" (.list []) = .ok sv)
    (h2 : pyGet d "format" (.dict []) = .ok fmtV)
    (h3 : pyIter sv = .ok streams)
    (h4 : findStream "video" streams = .ok v)
    (h5 : findStream "audio" streams = .ok a)
    (h6 : syncClassify v a = .ok sync)
    (h7 : analyze_sync_and_metadata d = .ok r) :
    rlookup r "sync_status" = some (.str sync.1) ∧
    rlookup r "sync_message" = some (.str sync.2) ∧
    rlookup r "codec_exception" =
      some (if pyTruthy v && pyTruthy a then PyVal.str "OK"
            else PyVal.str "警告: 缺少关键流") ∧
    (∃ fn, pyGet fmtV "filename" (.str "未知") = .ok fn ∧
      rlookup r "filename" = some fn) ∧
    (∃ x q, pyGet fmtV "duration" (.num 0) = .ok x ∧ pyFloat x = .ok q ∧
      rlookup r "duration" = some (.num q)) ∧
    (∃ x q, pyGet fmtV "size" (.num 0) = .ok x ∧ pyInt x = .ok q ∧
      rlookup r "size_bytes" = some (.num q)) ∧
    (∃ fn, pyGet fmtV "format_name" (.str "未知") = .ok fn ∧
      rlookup r "format_name" = some fn) ∧
    (∃ x q, pyGet fmtV "bit_rate" (.num 0) = .ok x ∧ pyInt x = .ok q ∧
      rlookup r "bit_rate" = some (.num q)) ∧
    (pyTruthy v = false → rlookup r "video" = Option.none) ∧
    (pyTruthy v = true → ∃ c w hh fr tg,
      pyGet v "codec_name" (.str "未知") = .ok c ∧
      pyGet v "width" .null = .ok w ∧
      pyGet v "height" .null = .ok hh ∧
      pyGet v "avg_frame_rate" (.str "未知") = .ok fr ∧
      pyGet v "codec_tag_string" (.str "未知") = .ok tg ∧
      rlookup r "video" = some (.dict
        [("codec", c), ("width", w), ("height", hh),
         ("avg_frame_rate", fr), ("codec_tag_string", tg)])) ∧
    (pyTruthy a = false → rlookup r "audio" = Option.none) ∧
    (pyTruthy a = true → ∃ c sr ch cl,
      pyGet a "codec_name" (.str "未知") = .ok c ∧
      pyGet a "sample_rate" .null = .ok sr ∧
      pyGet a "channels" .null = .ok ch ∧
      pyGet a "channel_layout" (.str "未知") = .ok cl ∧
      rlookup r "audio" = some (.dict
        [("codec", c), ("sample_rate", sr), ("channels", ch),
         ("channel_layout", cl)])) := by
  rw [analyze_pipeline h0 h1 h2 h3 h4 h5, h6, ebind_ok] at h7
  obtain ⟨fn, dur0, dur, sz0, sz, fnm, br0, br, vsec, asec,
    e1, e2, e3, e4, e5, e6, e7, e8, e9, e10, hr⟩ := buildReport_shape h7
  subst hr
  have hvsec : (pyTruthy v = false ∧ vsec = []) ∨
      (pyTruthy v = true ∧ ∃ c w hh fr tg,
        pyGet v "codec_name" (.str "未知") = .ok c ∧
        pyGet v "width" .null = .ok w ∧
        pyGet v "height" .null = .ok hh ∧
        pyGet v "avg_frame_rate" (.str "未知") = .ok fr ∧
        pyGet v "codec_tag_string" (.str "未知") = .ok tg ∧
        vsec = [("video", PyVal.dict
          [("codec", c), ("width", w), ("height", hh),
           ("avg_frame_rate", fr), ("codec_tag_string", tg)])]) := by
    rcases Bool.eq_false_or_eq_true (pyTruthy v) with hbv | hbv
    · exact Or.inr ⟨hbv, videoSection_shape hbv e9⟩
    · exact Or.inl ⟨hbv, (Except.ok.inj ((videoSection_of_not hbv).symm.trans e9)).symm⟩
  have hasec : (pyTruthy a = false ∧ asec = []) ∨
      (pyTruthy a = true ∧ ∃ c sr ch cl,
        pyGet a "codec_name" (.str "未知") = .ok c ∧
        pyGet a "sample_rate" .null = .ok sr ∧
        pyGet a "channels" .null = .ok ch ∧
        pyGet a "channel_layout" (.str "未知") = .ok cl ∧
        asec = [("audio", PyVal.dict
          [("codec", c), ("sample_rate", sr), ("channels", ch),
           ("channel_layout", cl)])]) := by
    rcases Bool.eq_false_or_eq_true (pyTruthy a) with hba | hba
    · exact Or.inr ⟨hba, audioSection_shape hba e10⟩
    · exact Or.inl ⟨hba, (Except.ok.inj ((audioSection_of_not hba).symm.trans e10)).symm⟩
  refine ⟨?_, ?_, ?_, ⟨fn, e1, ?_⟩, ⟨dur0, dur, e2, e3, ?_⟩,
    ⟨sz0, sz, e4, e5, ?_⟩, ⟨fnm, e6, ?_⟩, ⟨br0, br, e7, e8, ?_⟩,
    ?_, ?_, ?_, ?_⟩
  · simp [rlookup, dget]
  · simp [rlookup, dget]
  · rcases hvsec with ⟨hbv, hv0⟩ | ⟨hbv, _, _, _, _, _, _, _, _, _, _, hv0⟩ <;>
      rcases hasec with ⟨hba, ha0⟩ | ⟨hba, _, _, _, _, _, _, _, _, ha0⟩ <;>
      subst hv0 <;> subst ha0 <;> simp [rlookup, dget, hbv, hba]
  · simp [rlookup, dget]
  · simp [rlookup, dget]
  · simp [rlookup, dget]
  · simp [rlookup, dget]
  · simp [rlookup, dget]
  · intro hbv
    rcases hvsec with ⟨_, hv0⟩ | ⟨hbv', _⟩
    · subst hv0
      rcases hasec with ⟨hba, ha0⟩ | ⟨hba, _, _, _, _, _, _, _, _, ha0⟩ <;>
        subst ha0 <;> simp [rlookup, dget]
    · rw [hbv] at hbv'; exact absurd hbv' (by simp)
  · intro hbv
    rcases hvsec with ⟨hbv', _⟩ | ⟨_, c, w, hh, fr, tg, f1, f2, f3, f4, f5, hv0⟩
    · rw [hbv] at hbv'; exact absurd hbv' (by simp)
    · subst hv0
      exact ⟨c, w, hh, fr, tg, f1, f2, f3, f4, f5, by simp [rlookup, dget]⟩
  · intro hba
    rcases hasec with ⟨_, ha0⟩ | ⟨hba', _⟩
    · subst ha0
      rcases hvsec with ⟨hbv, hv0⟩ | ⟨hbv, _, _, _, _, _, _, _, _, _, _, hv0⟩ <;>
        subst hv0 <;> simp [rlookup, dget]
    · rw [hba] at hba'; exact absurd hba' (by simp)
  · intro hba
    rcases hasec with ⟨hba', _⟩ | ⟨_, c, sr, ch, cl, f1, f2, f3, f4, ha0⟩
    · rw [hba] at hba'; exact absurd hba' (by simp)
    · subst ha0
      rcases hvsec with ⟨hbv, hv0⟩ | ⟨hbv, _, _, _, _, _, _, _, _, _, _, hv0⟩ <;>
        subst hv0 <;> exact ⟨c, sr, ch, cl, f1, f2, f3, f4, by simp [rlookup, dget]⟩

lemma syncClassify_no_video {v a : PyVal} (h : pyTruthy v = false) :
    syncClassify v a = .ok ("警告: 缺少视频流", "文件不包含视频轨道。") := by
  simp [syncClassify, h]

lemma syncClassify_no_audio {v a : PyVal} (hv : pyTruthy v = true)
    (ha : pyTruthy a = false) :
    syncClassify v a = .ok ("警告: 缺少音频流", "文件不包含音频轨道。") := by
  simp [syncClassify, hv, ha]

/-- With both streams present and parseable start times, the sync
classification is decided by the strict comparison `|qv - qa| > 0.1`. -/
lemma syncClassify_both {v a vs0 as0 : PyVal} {qv qa : ℚ}
    (hv : pyTruthy v = true) (ha : pyTruthy a = true)
    (e1 : pyGet v "start_time" (.num 0) = .ok vs0)
    (e2 : pyFloat vs0 = .ok qv)
    (e3 : pyGet a "start_time" (.num 0) = .ok as0)
    (e4 : pyFloat as0 = .ok qa) :
    syncClassify v a = .ok
      (if |qv - qa| > 1 / 10 then
        ("警告: 音视频起始时间不同步",
         "视频起始时间差: " ++ fmt3 |qv - qa| ++ " 秒。建议检查音轨是否延迟。")
      else ("OK: 音视频同步存在", "文件包含音视频流。")) := by
  unfold syncClassify
  rw [hv, ha]
  simp only [Bool.not_true, Bool.false_eq_true, if_false]
  rw [e1, ebind_ok, e2, ebind_ok, e3, ebind_ok, e4, ebind_ok]
  split <;> simp [pure, Except.pure]

-- =================================================================
-- Concrete probe inputs and their reports
-- =================================================================

/-- A probe dict whose two streams have start times `"0.1"` and `"0"`:
start-time skew exactly at the 0.1-second threshold. -/
def probeAtThreshold : PyVal := .dict
  [("streams", .list
    [.dict [("codec_type", .str "video"), ("start_time", .str "0.1")],
     .dict [("codec_type", .str "audio"), ("start_time", .str "0")]]),
   ("format", .dict [])]

/-- The report the code produces for `probeAtThreshold`. -/
def reportAtThreshold : PyVal := .dict
  [("sync_status", .str "OK: 音视频同步存在"),
   ("sync_message", .str "文件包含音视频流。"),
   ("filename", .str "未知"), ("duration", .num 0),
   ("size_bytes", .num 0), ("format_name", .str "未知"),
   ("bit_rate", .num 0),
   ("video", .dict [("codec", .str "未知"), ("width", .null), ("height", .null),
     ("avg_frame_rate", .str "未知"), ("codec_tag_string", .str "未知")]),
   ("audio", .dict [("codec", .str "未知"), ("sample_rate", .null),
     ("channels", .null), ("channel_layout", .str "未知")]),
   ("codec_exception", .str "OK")]

-- =================================================================
-- C1
-- =================================================================

/-- C1, counterexample: on a probe whose video/audio start times are
`"0.1"` and `"0"` — a skew exactly equal to the 0.1-second threshold —
the code classifies the sync status as "OK: sync present", not as the
start-time-mismatch warning, because the comparison on main.py:107 is
strict `>`. -/
theorem threshold_boundary_counterexample :
    analyze_sync_and_metadata probeAtThreshold = .ok reportAtThreshold ∧
    rlookup reportAtThreshold "sync_status" =
      some (.str "OK: 音视频同步存在") ∧
    rlookup reportAtThreshold "sync_status" ≠
      some (.str "警告: 音视频起始时间不同步") ∧
    pyFloat (.str "0.1") = .ok (1 / 10) ∧
    pyFloat (.str "0") = .ok 0 ∧ |(1 : ℚ) / 10 - 0| = 1 / 10 := by
  refine ⟨by with_unfolding_all rfl, by with_unfolding_all rfl, ?_,
    by with_unfolding_all rfl, by with_unfolding_all rfl, by norm_num⟩
  simp [reportAtThreshold, rlookup, dget]

/-- C1, amended: with both streams present and parseable start times,
the classification is decided by a strict comparison of the skew with
0.1 seconds — a skew less than or equal to the threshold (boundary
included) yields "OK: sync present", and only a skew strictly above it
yields the start-time-mismatch warning. -/
theorem start_time_threshold_strict {d sv fmtV : PyVal} {streams : List PyVal}
    {v a vs0 as0 r : PyVal} {qv qa : ℚ}
    (h0 : pyContains d "error" = .ok false)
    (h1 : pyGet d "streams" (.list []) = .ok sv)
    (h2 : pyGet d "format" (.dict []) = .ok fmtV)
    (h3 : pyIter sv = .ok streams)
    (h4 : findStream "video" streams = .ok v)
    (h5 : findStream "audio" streams = .ok a)
    (hv : pyTruthy v = true) (ha : pyTruthy a = true)
    (e1 : pyGet v "start_time" (.num 0) = .ok vs0)
    (e2 : pyFloat vs0 = .ok qv)
    (e3 : pyGet a "start_time" (.num 0) = .ok as0)
    (e4 : pyFloat as0 = .ok qa)
    (h7 : analyze_sync_and_metadata d = .ok r) :
    (|qv - qa| ≤ 1 / 10 →
      rlookup r "sync_status" = some (.str "OK: 音视频同步存在")) ∧
    (1 / 10 < |qv - qa| →
      rlookup r "sync_status" = some (.str "警告: 音视频起始时间不同步")) := by
  constructor
  · intro hle
    have h6 := syncClassify_both hv ha e1 e2 e3 e4
    rw [if_neg (not_lt.mpr hle)] at h6
    exact (analyze_ok_lookups h0 h1 h2 h3 h4 h5 h6 h7).1
  · intro hlt
    have h6 := syncClassify_both hv ha e1 e2 e3 e4
    rw [if_pos hlt] at h6
    exact (analyze_ok_lookups h0 h1 h2 h3 h4 h5 h6 h7).1

/-- C1, witness: the amended theorem applied at `probeAtThreshold`,
whose skew is exactly 0.1. -/
theorem start_time_threshold_strict_witness :
    rlookup reportAtThreshold "sync_status" =
      some (.str "OK: 音视频同步存在") :=
  (@start_time_threshold_strict probeAtThreshold
    (.list [.dict [("codec_type", .str "video"), ("start_time", .str "0.1")],
            .dict [("codec_type", .str "audio"), ("start_time", .str "0")]])
    (.dict [])
    [.dict [("codec_type", .str "video"), ("start_time", .str "0.1")],
     .dict [("codec_type", .str "audio"), ("start_time", .str "0")]]
    (.dict [("codec_type", .str "video"), ("start_time", .str "0.1")])
    (.dict [("codec_type", .str "audio"), ("start_time", .str "0")])
    (.str "0.1") (.str "0") reportAtThreshold (1 / 10) 0
    rfl rfl rfl rfl (by with_unfolding_all rfl) (by with_unfolding_all rfl)
    rfl rfl rfl (by with_unfolding_all rfl) rfl (by with_unfolding_all rfl)
    (by with_unfolding_all rfl)).1 (by rw [show (1 : ℚ) / 10 - 0 = 1 / 10 by norm_num]; exact (abs_of_nonneg (by norm_num)).le)

-- =================================================================
-- C2
-- =================================================================

/-- C2: with no video stream the sync status is the missing-video
warning (video is checked first, so this also covers both-missing);
with a video stream but no audio stream it is the missing-audio
warning; whenever at least one stream is missing the codec-exception
field is the warning marker (and that marker differs from "OK"); and
with both streams present it is exactly "OK". -/
theorem missing_stream_classification {d sv fmtV : PyVal}
    {streams : List PyVal} {v a r : PyVal}
    (h0 : pyContains d "error" = .ok false)
    (h1 : pyGet d "streams" (.list []) = .ok sv)
    (h2 : pyGet d "format" (.dict []) = .ok fmtV)
    (h3 : pyIter sv = .ok streams)
    (h4 : findStream "video" streams = .ok v)
    (h5 : findStream "audio" streams = .ok a)
    (h7 : analyze_sync_and_metadata d = .ok r) :
    (pyTruthy v = false →
      rlookup r "sync_status" = some (.str "警告: 缺少视频流")) ∧
    (pyTruthy v = true → pyTruthy a = false →
      rlookup r "sync_status" = some (.str "警告: 缺少音频流")) ∧
    ((pyTruthy v = false ∨ pyTruthy a = false) →
      rlookup r "codec_exception" = some (.str "警告: 缺少关键流") ∧
      ("警告: 缺少关键流" : String) ≠ "OK") ∧
    (pyTruthy v = true → pyTruthy a = true →
      rlookup r "codec_exception" = some (.str "OK")) := by
  have h7' := h7
  rw [analyze_pipeline h0 h1 h2 h3 h4 h5] at h7'
  obtain ⟨sync, h6, -⟩ := ebind_ok_inv h7'
  obtain ⟨A1, A2, A3, -⟩ := analyze_ok_lookups h0 h1 h2 h3 h4 h5 h6 h7
  refine ⟨?_, ?_, ?_, ?_⟩
  · intro hbv
    have hs : sync = ("警告: 缺少视频流", "文件不包含视频轨道。") :=
      (Except.ok.inj ((syncClassify_no_video hbv).symm.trans h6)).symm
    rw [A1, hs]
  · intro hbv hba
    have hs : sync = ("警告: 缺少音频流", "文件不包含音频轨道。") :=
      (Except.ok.inj ((syncClassify_no_audio hbv hba).symm.trans h6)).symm
    rw [A1, hs]
  · intro h
    have hb : (pyTruthy v && pyTruthy a) = false := by
      rcases h with h | h <;> simp [h]
    rw [hb] at A3
    exact ⟨by simpa using A3, by decide⟩
  · intro hbv hba
    rw [hbv, hba] at A3
    simpa using A3

/-- A probe dict with an empty stream list and empty format section. -/
def probeNoStreams : PyVal := .dict
  [("streams", .list []), ("format", .dict [])]

/-- The report the code produces for `probeNoStreams`. -/
def reportNoStreams : PyVal := .dict
  [("sync_status", .str "警告: 缺少视频流"),
   ("sync_message", .str "文件不包含视频轨道。"),
   ("filename", .str "未知"), ("duration", .num 0),
   ("size_bytes", .num 0), ("format_name", .str "未知"),
   ("bit_rate", .num 0),
   ("codec_exception", .str "警告: 缺少关键流")]

/-- C2, witness: the classification theorem applied at `probeNoStreams`
(no streams at all → missing-video warning and warning codec flag). -/
theorem missing_stream_classification_witness :
    rlookup reportNoStreams "sync_status" =
      some (.str "警告: 缺少视频流") ∧
    rlookup reportNoStreams "codec_exception" =
      some (.str "警告: 缺少关键流") := by
  have h := @missing_stream_classification probeNoStreams (.list []) (.dict [])
    [] .null .null reportNoStreams rfl rfl rfl rfl rfl rfl
    (by with_unfolding_all rfl)
  exact ⟨h.1 rfl, (h.2.2.1 (Or.inl rfl)).1⟩

-- =================================================================
-- C3
-- =================================================================

/-- C3, counterexample: when the external tool is absent, `run_ffprobe`
does not produce the stderr-carrying probe-failure marker — the
`FileNotFoundError` raised by the process spawn is not caught by
`run_ffprobe` at all (main.py:63-68 catch only `CalledProcessError` and
`JSONDecodeError`), so the error propagates as an uncaught exception. -/
theorem run_ffprobe_tool_absent_counterexample :
    run_ffprobe ProbeOutcome.toolAbsent = .error .fileNotFoundError ∧
    (∀ stderr : String, run_ffprobe ProbeOutcome.toolAbsent ≠
      .ok (.dict [("error", .str "FFprobe analysis failed"),
                  ("details", .str stderr)])) := by
  exact ⟨rfl, fun stderr h => by simp [run_ffprobe] at h⟩

/-- C3, amended: a non-zero exit of the tool yields the returned
probe-failure marker carrying the tool's stderr; output that does not
decode as JSON yields the invalid-JSON marker; a successful decode is
returned as-is; but an absent tool raises an uncaught
`FileNotFoundError` (handled only by the route's generic internal-error
handler), not a probe-failure marker. -/
theorem run_ffprobe_failure_modes :
    (∀ stderr : String, run_ffprobe (ProbeOutcome.nonZeroExit stderr) =
      .ok (.dict [("error", .str "FFprobe analysis failed"),
                  ("details", .str stderr)])) ∧
    run_ffprobe (ProbeOutcome.output Option.none) =
      .ok (.dict [("error", .str "Invalid JSON response from FFprobe")]) ∧
    (∀ v : PyVal, run_ffprobe (ProbeOutcome.output (some v)) = .ok v) ∧
    run_ffprobe ProbeOutcome.toolAbsent = .error .fileNotFoundError := by
  exact ⟨fun _ => rfl, rfl, fun _ => rfl, rfl⟩

-- =================================================================
-- C4
-- =================================================================

/-- C4: for every request that reaches the file-save step — whatever the
save outcome and whatever the probe outcome (success, probe failure
marker, absent tool, malformed output), including the paths on which
analysis raises and the route answers 500 — the `finally` block leaves
the temporary file deleted: it no longer exists once the request
completes. -/
theorem temp_file_always_removed (sv : SaveResult) (po : ProbeOutcome) :
    (analyze_video sv po).1 = false := by
  cases sv with
  | saved => rfl
  | failed leftover => cases leftover <;> rfl

-- =================================================================
-- C5
-- =================================================================

lemma dget_some_mem_key {kvs : List (String × PyVal)} {k : String} {x : PyVal}
    (h : dget kvs k = some x) : kvs.any (fun p => p.1 == k) = true := by
  induction kvs with
  | nil => simp [dget] at h
  | cons p rest ih =>
    obtain ⟨k', y⟩ := p
    rw [dget_cons] at h
    by_cases hk : k' = k
    · simp [hk]
    · rw [if_neg hk] at h
      simp [ih h]

/-- Shared characterization of the error branch (main.py:80-82). -/
lemma analyze_error_dict {kvs : List (String × PyVal)} {err : PyVal}
    (h : dget kvs "error" = some err) :
    analyze_sync_and_metadata (.dict kvs) =
      .ok (.dict [("sync_status", .str "分析失败"), ("message", err),
                  ("details", dgetD kvs "details" (.str ""))]) := by
  unfold analyze_sync_and_metadata
  rw [show pyContains (.dict kvs) "error" = .ok true from by
    simp [pyContains, dget_some_mem_key h]]
  rw [ebind_ok]
  simp only [if_true]
  rw [show pyGetItem (.dict kvs) "error" = .ok err from by simp [pyGetItem, h]]
  rw [ebind_ok]
  rw [show pyGet (.dict kvs) "details" (.str "") =
    .ok (dgetD kvs "details" (.str "")) from rfl]
  rw [ebind_ok]
  rfl

/-- C5: a probe dict carrying the propagated probe-failure marker (an
`"error"` key) is reported with the "analysis failed" status and the
upstream error as the message, together with the upstream detail text;
and the result depends only on the `"error"` and `"details"` entries —
no stream lookup or skew comparison takes part (two inputs agreeing on
those two entries produce the same result). -/
theorem probe_error_propagation {kvs : List (String × PyVal)} {err : PyVal}
    (h : dget kvs "error" = some err) :
    analyze_sync_and_metadata (.dict kvs) =
      .ok (.dict [("sync_status", .str "分析失败"), ("message", err),
                  ("details", dgetD kvs "details" (.str ""))]) ∧
    (∀ kvs₂ : List (String × PyVal), dget kvs₂ "error" = some err →
      dgetD kvs₂ "details" (.str "") = dgetD kvs "details" (.str "") →
      analyze_sync_and_metadata (.dict kvs₂) =
        analyze_sync_and_metadata (.dict kvs)) := by
  refine ⟨analyze_error_dict h, fun kvs₂ h₂ hdet => ?_⟩
  rw [analyze_error_dict h₂, analyze_error_dict h, hdet]

/-- C5, witness: the propagation theorem applied at a concrete
probe-failure marker with stderr detail `"boom"`. -/
theorem probe_error_propagation_witness :
    analyze_sync_and_metadata (.dict
      [("error", .str "FFprobe analysis failed"), ("details", .str "boom")]) =
    .ok (.dict [("sync_status", .str "分析失败"),
                ("message", .str "FFprobe analysis failed"),
                ("details", .str "boom")]) :=
  (@probe_error_propagation
    [("error", .str "FFprobe analysis failed"), ("details", .str "boom")]
    (.str "FFprobe analysis failed") rfl).1

-- =================================================================
-- C6
-- =================================================================

/-- The spec's scenario input: duration 10.0, video start 0.0, audio
start 0.05. -/
def probeScenario : PyVal := .dict
  [("format", .dict [("duration", .str "10.0")]),
   ("streams", .list
    [.dict [("codec_type", .str "video"), ("start_time", .str "0.0")],
     .dict [("codec_type", .str "audio"), ("start_time", .str "0.05")]])]

/-- The report the code produces for `probeScenario`. -/
def reportScenario : PyVal := .dict
  [("sync_status", .str "OK: 音视频同步存在"),
   ("sync_message", .str "文件包含音视频流。"),
   ("filename", .str "未知"), ("duration", .num 10),
   ("size_bytes", .num 0), ("format_name", .str "未知"),
   ("bit_rate", .num 0),
   ("video", .dict [("codec", .str "未知"), ("width", .null), ("height", .null),
     ("avg_frame_rate", .str "未知"), ("codec_tag_string", .str "未知")]),
   ("audio", .dict [("codec", .str "未知"), ("sample_rate", .null),
     ("channels", .null), ("channel_layout", .str "未知")]),
   ("codec_exception", .str "OK")]

/-- C6, counterexample: on the scenario input the sync message is the
generic "file contains audio and video streams" text — the skew value
`0.050` appears nowhere in it, because main.py:109 only formats the skew
into the message on the mismatch branch. -/
theorem scenario_message_counterexample :
    analyze_sync_and_metadata probeScenario = .ok reportScenario ∧
    rlookup reportScenario "sync_message" =
      some (.str "文件包含音视频流。") ∧
    ¬ ("0.050".data <:+: "文件包含音视频流。".data) := by
  refine ⟨by with_unfolding_all rfl, by with_unfolding_all rfl, by decide⟩

/-- C6, amended: on the scenario input (duration 10.0, video start 0.0,
audio start 0.05) the sync status is the "OK" classification, the
reported duration is 10, and the sync message is the generic
both-streams-present text — the skew is only ever reported in the
mismatch-branch message. -/
theorem scenario_report_ok :
    analyze_sync_and_metadata probeScenario = .ok reportScenario ∧
    rlookup reportScenario "sync_status" =
      some (.str "OK: 音视频同步存在") ∧
    rlookup reportScenario "sync_message" =
      some (.str "文件包含音视频流。") ∧
    rlookup reportScenario "duration" = some (.num 10) ∧
    pyFloat (.str "0.0") = .ok 0 ∧ pyFloat (.str "0.05") = .ok (1 / 20) ∧
    |(0 : ℚ) - 1 / 20| ≤ 1 / 10 := by
  refine ⟨by with_unfolding_all rfl, by with_unfolding_all rfl,
    by with_unfolding_all rfl, by with_unfolding_all rfl,
    by with_unfolding_all rfl, by with_unfolding_all rfl, ?_⟩
  rw [show (0 : ℚ) - 1 / 20 = -(1 / 20) by norm_num, abs_neg,
    abs_of_nonneg (by norm_num)]
  norm_num

-- =================================================================
-- C7
-- =================================================================

/-- A probe dict whose `format.duration` is the unparsable string
`"abc"`. -/
def probeBadDuration : PyVal := .dict
  [("streams", .list []), ("format", .dict [("duration", .str "abc")])]

/-- C7, counterexample: a present-but-unparsable `format.duration` does
not fall back to 0 — `float("abc")` raises `ValueError`, and the
exception escapes the report builder (reaching the route's generic
internal-error handler). -/
theorem unparsable_duration_counterexample :
    analyze_sync_and_metadata probeBadDuration = .error .valueError ∧
    parseDecimal "abc" = Option.none := by
  exact ⟨by with_unfolding_all rfl, by with_unfolding_all rfl⟩

lemma pyInt_zero : pyInt (.num 0) = .ok 0 := by
  with_unfolding_all rfl

/-- C7, amended: the container-metadata defaults apply only to absent
format fields — duration 0, size 0, format name "unknown", bit rate 0
when the key is missing — and a present parsable duration string is
parsed; a present unparsable value raises `ValueError`, which escapes
as an exception (see the counterexample). -/
theorem format_defaults_when_absent {d sv : PyVal}
    {fkvs : List (String × PyVal)} {streams : List PyVal} {v a r : PyVal}
    (h0 : pyContains d "error" = .ok false)
    (h1 : pyGet d "streams" (.list []) = .ok sv)
    (h2 : pyGet d "format" (.dict []) = .ok (.dict fkvs))
    (h3 : pyIter sv = .ok streams)
    (h4 : findStream "video" streams = .ok v)
    (h5 : findStream "audio" streams = .ok a)
    (h7 : analyze_sync_and_metadata d = .ok r) :
    (dget fkvs "duration" = Option.none →
      rlookup r "duration" = some (.num 0)) ∧
    (∀ s q, dget fkvs "duration" = some (.str s) → parseDecimal s = some q →
      rlookup r "duration" = some (.num q)) ∧
    (dget fkvs "size" = Option.none →
      rlookup r "size_bytes" = some (.num 0)) ∧
    (dget fkvs "format_name" = Option.none →
      rlookup r "format_name" = some (.str "未知")) ∧
    (dget fkvs "bit_rate" = Option.none →
      rlookup r "bit_rate" = some (.num 0)) := by
  have h7' := h7
  rw [analyze_pipeline h0 h1 h2 h3 h4 h5] at h7'
  obtain ⟨sync, h6, -⟩ := ebind_ok_inv h7'
  obtain ⟨-, -, -, -, A5, A6, A7, A8, -⟩ :=
    analyze_ok_lookups h0 h1 h2 h3 h4 h5 h6 h7
  obtain ⟨x, q, ex, epf, er⟩ := A5
  have hx : dgetD fkvs "duration" (.num 0) = x := Except.ok.inj ex
  obtain ⟨y, qs, ey, epi, es⟩ := A6
  have hy : dgetD fkvs "size" (.num 0) = y := Except.ok.inj ey
  obtain ⟨fnm, efn, efr⟩ := A7
  have hfn : dgetD fkvs "format_name" (.str "未知") = fnm := Except.ok.inj efn
  obtain ⟨z, qb, ez, epb, eb⟩ := A8
  have hz : dgetD fkvs "bit_rate" (.num 0) = z := Except.ok.inj ez
  refine ⟨?_, ?_, ?_, ?_, ?_⟩
  · intro habs
    have hx0 : x = .num 0 := by rw [← hx]; simp [dgetD, habs]
    rw [hx0] at epf
    have : (0 : ℚ) = q := Except.ok.inj epf
    rw [er, ← this]
  · intro s q' hget hparse
    have hxs : x = .str s := by rw [← hx]; simp [dgetD, hget]
    rw [hxs] at epf
    rw [show pyFloat (.str s) = .ok q' from by simp [pyFloat, hparse]] at epf
    rw [er, ← Except.ok.inj epf]
  · intro habs
    have hy0 : y = .num 0 := by rw [← hy]; simp [dgetD, habs]
    rw [hy0, pyInt_zero] at epi
    rw [es, ← Except.ok.inj epi]
  · intro habs
    have hf0 : fnm = .str "未知" := by rw [← hfn]; simp [dgetD, habs]
    rw [efr, hf0]
  · intro habs
    have hz0 : z = .num 0 := by rw [← hz]; simp [dgetD, habs]
    rw [hz0, pyInt_zero] at epb
    rw [eb, ← Except.ok.inj epb]

/-- C7, witness: the defaults theorem applied at `probeNoStreams`
(empty format section: every field absent). -/
theorem format_defaults_when_absent_witness :
    rlookup reportNoStreams "duration" = some (.num 0) ∧
    rlookup reportNoStreams "size_bytes" = some (.num 0) ∧
    rlookup reportNoStreams "format_name" = some (.str "未知") ∧
    rlookup reportNoStreams "bit_rate" = some (.num 0) := by
  have h := @format_defaults_when_absent probeNoStreams (.list []) [] []
    .null .null reportNoStreams rfl rfl rfl rfl rfl rfl
    (by with_unfolding_all rfl)
  exact ⟨h.1 rfl, h.2.2.1 rfl, h.2.2.2.1 rfl, h.2.2.2.2 rfl⟩

-- =================================================================
-- C8
-- =================================================================

/-- A probe dict whose streams carry only their `codec_type`. -/
def probeBareStreams : PyVal := .dict
  [("streams", .list
    [.dict [("codec_type", .str "video")],
     .dict [("codec_type", .str "audio")]]),
   ("format", .dict [])]

/-- The video section the code produces for a bare video stream. -/
def videoSectionBare : List (String × PyVal) :=
  [("codec", .str "未知"), ("width", .null), ("height", .null),
   ("avg_frame_rate", .str "未知"), ("codec_tag_string", .str "未知")]

/-- The audio section the code produces for a bare audio stream. -/
def audioSectionBare : List (String × PyVal) :=
  [("codec", .str "未知"), ("sample_rate", .null), ("channels", .null),
   ("channel_layout", .str "未知")]

/-- The report the code produces for `probeBareStreams`. -/
def reportBareStreams : PyVal := .dict
  [("sync_status", .str "OK: 音视频同步存在"),
   ("sync_message", .str "文件包含音视频流。"),
   ("filename", .str "未知"), ("duration", .num 0),
   ("size_bytes", .num 0), ("format_name", .str "未知"),
   ("bit_rate", .num 0),
   ("video", .dict videoSectionBare),
   ("audio", .dict audioSectionBare),
   ("codec_exception", .str "OK")]

/-- C8, counterexample: for streams that report none of the numeric
fields, the per-stream report sections still contain the `width`,
`height`, `sample_rate` and `channels` keys — bound to the null marker
(Python `None`, JSON `null`) — rather than leaving them absent, because
`stream.get('width')` and friends (main.py:126-127, 134-135) insert the
key with value `None`. -/
theorem missing_numeric_fields_counterexample :
    analyze_sync_and_metadata probeBareStreams = .ok reportBareStreams ∧
    rlookup reportBareStreams "video" = some (.dict videoSectionBare) ∧
    dget videoSectionBare "width" = some PyVal.null ∧
    dget videoSectionBare "width" ≠ Option.none ∧
    dget videoSectionBare "height" = some PyVal.null ∧
    rlookup reportBareStreams "audio" = some (.dict audioSectionBare) ∧
    dget audioSectionBare "sample_rate" = some PyVal.null ∧
    dget audioSectionBare "channels" = some PyVal.null := by
  refine ⟨by with_unfolding_all rfl, by with_unfolding_all rfl, rfl,
    by simp [videoSectionBare, dget], rfl, by with_unfolding_all rfl, rfl, rfl⟩

/-- C8, amended: for each present stream the report section substitutes
the literal unknown marker for each missing string-valued field, and
binds each missing numeric-valued field to the null marker (present in
the section, not coerced to 0 and not omitted). -/
theorem stream_field_defaults {d sv : PyVal} {streams : List PyVal}
    {vkvs akvs : List (String × PyVal)} {fmtV r : PyVal}
    (h0 : pyContains d "error" = .ok false)
    (h1 : pyGet d "streams" (.list []) = .ok sv)
    (h2 : pyGet d "format" (.dict []) = .ok fmtV)
    (h3 : pyIter sv = .ok streams)
    (h4 : findStream "video" streams = .ok (.dict vkvs))
    (h5 : findStream "audio" streams = .ok (.dict akvs))
    (htv : pyTruthy (.dict vkvs) = true)
    (hta : pyTruthy (.dict akvs) = true)
    (h7 : analyze_sync_and_metadata d = .ok r) :
    (∃ vsec, rlookup r "video" = some (.dict vsec) ∧
      (dget vkvs "codec_name" = Option.none →
        dget vsec "codec" = some (.str "未知")) ∧
      (dget vkvs "width" = Option.none →
        dget vsec "width" = some PyVal.null) ∧
      (dget vkvs "height" = Option.none →
        dget vsec "height" = some PyVal.null) ∧
      (dget vkvs "avg_frame_rate" = Option.none →
        dget vsec "avg_frame_rate" = some (.str "未知")) ∧
      (dget vkvs "codec_tag_string" = Option.none →
        dget vsec "codec_tag_string" = some (.str "未知"))) ∧
    (∃ asec, rlookup r "audio" = some (.dict asec) ∧
      (dget akvs "codec_name" = Option.none →
        dget asec "codec" = some (.str "未知")) ∧
      (dget akvs "sample_rate" = Option.none →
        dget asec "sample_rate" = some PyVal.null) ∧
      (dget akvs "channels" = Option.none →
        dget asec "channels" = some PyVal.null) ∧
      (dget akvs "channel_layout" = Option.none →
        dget asec "channel_layout" = some (.str "未知"))) := by
  have h7' := h7
  rw [analyze_pipeline h0 h1 h2 h3 h4 h5] at h7'
  obtain ⟨sync, h6, -⟩ := ebind_ok_inv h7'
  obtain ⟨-, -, -, -, -, -, -, -, -, A10, -, A12⟩ :=
    analyze_ok_lookups h0 h1 h2 h3 h4 h5 h6 h7
  constructor
  · obtain ⟨c, w, hh, fr, tg, f1, f2, f3, f4, f5, fl⟩ := A10 htv
    have hc : dgetD vkvs "codec_name" (.str "未知") = c := Except.ok.inj f1
    have hw : dgetD vkvs "width" .null = w := Except.ok.inj f2
    have hhh : dgetD vkvs "height" .null = hh := Except.ok.inj f3
    have hfr : dgetD vkvs "avg_frame_rate" (.str "未知") = fr := Except.ok.inj f4
    have htg : dgetD vkvs "codec_tag_string" (.str "未知") = tg := Except.ok.inj f5
    refine ⟨_, fl, ?_, ?_, ?_, ?_, ?_⟩
    · intro habs
      rw [show c = .str "未知" from by rw [← hc]; simp [dgetD, habs]] at fl ⊢
      simp [dget]
    · intro habs
      rw [show w = PyVal.null from by rw [← hw]; simp [dgetD, habs]]
      simp [dget]
    · intro habs
      rw [show hh = PyVal.null from by rw [← hhh]; simp [dgetD, habs]]
      simp [dget]
    · intro habs
      rw [show fr = .str "未知" from by rw [← hfr]; simp [dgetD, habs]]
      simp [dget]
    · intro habs
      rw [show tg = .str "未知" from by rw [← htg]; simp [dgetD, habs]]
      simp [dget]
  · obtain ⟨c, sr, ch, cl, f1, f2, f3, f4, fl⟩ := A12 hta
    have hc : dgetD akvs "codec_name" (.str "未知") = c := Except.ok.inj f1
    have hsr : dgetD akvs "sample_rate" .null = sr := Except.ok.inj f2
    have hch : dgetD akvs "channels" .null = ch := Except.ok.inj f3
    have hcl : dgetD akvs "channel_layout" (.str "未知") = cl := Except.ok.inj f4
    refine ⟨_, fl, ?_, ?_, ?_, ?_⟩
    · intro habs
      rw [show c = .str "未知" from by rw [← hc]; simp [dgetD, habs]]
      simp [dget]
    · intro habs
      rw [show sr = PyVal.null from by rw [← hsr]; simp [dgetD, habs]]
      simp [dget]
    · intro habs
      rw [show ch = PyVal.null from by rw [← hch]; simp [dgetD, habs]]
      simp [dget]
    · intro habs
      rw [show cl = .str "未知" from by rw [← hcl]; simp [dgetD, habs]]
      simp [dget]

/-- C8, witness: the defaults theorem applied at `probeBareStreams`,
whose streams report none of the optional fields. -/
theorem stream_field_defaults_witness :
    rlookup reportBareStreams "video" = some (.dict videoSectionBare) ∧
    dget videoSectionBare "codec" = some (.str "未知") ∧
    dget videoSectionBare "width" = some PyVal.null ∧
    dget audioSectionBare "sample_rate" = some PyVal.null := by
  have h := @stream_field_defaults probeBareStreams
    (.list [.dict [("codec_type", .str "video")],
            .dict [("codec_type", .str "audio")]])
    [.dict [("codec_type", .str "video")],
     .dict [("codec_type", .str "audio")]]
    [("codec_type", .str "video")] [("codec_type", .str "audio")]
    (.dict []) reportBareStreams
    rfl rfl rfl rfl rfl rfl rfl rfl (by with_unfolding_all rfl)
  obtain ⟨⟨vsec, hv, hcod, hwid, -⟩, ⟨asec, hau, -, hsr, -⟩⟩ := h
  have hveq : vsec = videoSectionBare :=
    PyVal.dict.inj (Option.some.inj
      ((rfl : rlookup reportBareStreams "video" =
        some (.dict videoSectionBare)).symm.trans hv)).symm
  have haeq : asec = audioSectionBare :=
    PyVal.dict.inj (Option.some.inj
      ((rfl : rlookup reportBareStreams "audio" =
        some (.dict audioSectionBare)).symm.trans hau)).symm
  subst hveq haeq
  exact ⟨hv, hcod rfl, hwid rfl, hsr rfl⟩

-- =================================================================
-- C9
-- =================================================================

/-- C9: the report builder is a pure function of the raw probe
structure — no hidden or persisted state — so running it twice on the
same input yields identical results. -/
theorem analyze_deterministic (d : PyVal) (r₁ r₂ : Except PyErr PyVal)
    (h₁ : analyze_sync_and_metadata d = r₁)
    (h₂ : analyze_sync_and_metadata d = r₂) : r₁ = r₂ :=
  h₁.symm.trans h₂

/-- C9, witness: two runs on the scenario input produce the same
concrete report. -/
theorem analyze_deterministic_witness :
    (Except.ok reportScenario : Except PyErr PyVal) = .ok reportScenario :=
  analyze_deterministic probeScenario (.ok reportScenario) (.ok reportScenario)
    (by with_unfolding_all rfl) (by with_unfolding_all rfl)

-- =================================================================
-- C10
-- =================================================================

lemma contains_eq_true_iff_mem {α : Type} [BEq α] [LawfulBEq α]
    (l : List α) (a : α) : l.contains a = true ↔ a ∈ l :=
  List.elem_iff

/-- C10: the extension check accepts a filename iff it contains at
least one dot and the substring after the last dot equals, after
lowercasing, one of mp4/mov/avi/mkv; in particular the uppercase
".MP4" is accepted while the dotless name "mp4" is rejected. -/
theorem allowed_file_characterization :
    (∀ filename : String, allowed_file filename = true ↔
      ('.' ∈ filename.data ∧
        (extAfterLastDot filename).toLower ∈ ALLOWED_EXTENSIONS)) ∧
    allowed_file ".MP4" = true ∧ allowed_file "mp4" = false := by
  refine ⟨fun filename => ?_, by with_unfolding_all rfl,
    by with_unfolding_all rfl⟩
  by_cases hdot : filename.data.contains '.'
  · have hr : (rsplit1 '.' filename).getD 1 "" = extAfterLastDot filename := by
      unfold rsplit1 extAfterLastDot
      rw [if_pos hdot]
      rfl
    simp only [allowed_file, hr, hdot, Bool.true_and]
    rw [contains_eq_true_iff_mem]
    exact and_iff_right (contains_eq_true_iff_mem _ _ |>.mp hdot) |>.symm
  · simp only [allowed_file, hdot, Bool.false_and]
    constructor
    · intro h; exact absurd h (by simp)
    · rintro ⟨hmem, -⟩
      exact absurd ((contains_eq_true_iff_mem _ _).mpr hmem) hdot
